import Mathlib

/-!
Shallow embedding of `src/system_inventory.py` and proofs about it.

Modelling conventions:
- Python floats are modelled as rationals (`ℚ`); the not-a-number sentinel
  produced by `get_uptime_seconds` is made explicit by the type `PyFloat`.
- Python `None` is modelled by `Option.none`.
- OS-introspection results (`platform.uname()`, `psutil.*`, `os.getloadavg()`,
  `os.path.exists`, `subprocess.check_output`) are inputs of the collection
  function, gathered in the structure `SysEnv`; an exception raised by one
  of those calls is an `Except.error` / `Option.none` input value.
- A Python exception that the program does not catch is modelled by
  `Except.error` in the result of `collect_inventory`.
-/

namespace SystemInventory

/-- Python whitespace characters stripped by `str.strip()` (ASCII range). -/
def isPySpace (c : Char) : Bool :=
  c = ' ' || c = '\t' || c = '\n' || c = '\r' || c = '\x0b' || c = '\x0c'

/-- Model of Python `str.strip()`: drop leading and trailing whitespace. -/
def pyStrip (s : String) : String :=
  String.mk (((s.data.dropWhile isPySpace).reverse.dropWhile isPySpace).reverse)

/-- Model of Python `str.lower()` (ASCII case folding). -/
def pyLower (s : String) : String :=
  String.mk (s.data.map Char.toLower)

/-- A Python float that may be the not-a-number sentinel
(`get_uptime_seconds` returns `float("nan")` when boot time is unreadable). -/
inductive PyFloat where
  | nan : PyFloat
  | val : ℚ → PyFloat
deriving DecidableEq

/-- The unit-symbol tuple of `human_bytes`:
`symbols = ("B", "KB", "MB", "GB", "TB")`. -/
def symbols : List String := ["B", "KB", "MB", "GB", "TB"]

/-- Round a rational to the nearest integer, ties to even: the rounding used
by Python `format(f, ".2f")` (applied here to exactly representable values). -/
def roundHalfEven (q : ℚ) : ℤ :=
  let fl := ⌊q⌋
  let frac := q - fl
  if frac < 1/2 then fl
  else if 1/2 < frac then fl + 1
  else if 2 ∣ fl then fl else fl + 1

/-- Model of the f-string conversion `f"{f:.2f}"` for a nonnegative float:
two digits after the decimal point. -/
def format2 (q : ℚ) : String :=
  let c := (roundHalfEven (q * 100)).toNat
  let ip := c / 100
  let fp := c % 100
  toString ip ++ "." ++ (if fp < 10 then "0" ++ toString fp else toString fp)

/-- The `while f >= 1024 and i < len(symbols) - 1` loop of `human_bytes`,
with explicit fuel; the loop body runs at most `len(symbols) - 1` times
because `i` strictly increases towards the guard bound. -/
def hbAux : Nat → ℚ → Nat → ℚ × Nat
  | 0, f, i => (f, i)
  | fuel + 1, f, i =>
    if 1024 ≤ f ∧ i < symbols.length - 1 then hbAux fuel (f / 1024) (i + 1)
    else (f, i)

/-- The loop of `human_bytes`, started with enough fuel: once the fuel
`len(symbols) - 1 - i` is spent, `i` has reached `len(symbols) - 1` and the
guard is false anyway. -/
def hbLoop (f : ℚ) (i : Nat) : ℚ × Nat :=
  hbAux (symbols.length - 1 - i) f i

/-- Body of `human_bytes` after a successful `f = float(n)` conversion:
repeatedly divide by 1024 while selecting a unit symbol, then render as
`f"{f:.2f} {symbols[i]}"`.  The float value is the exact rational `n`;
this is only used where the conversion does not overflow (see
`float_of_nat`), and the sub-ulp rounding of large convertible integers
is abstracted away (it cannot move the value across the 1024 thresholds
proved about here, which are exactly representable). -/
def human_bytes (n : Nat) : String :=
  let r := hbLoop ((n : ℚ)) 0
  format2 r.1 ++ " " ++ symbols.getD r.2 ""

/-- Model of the CPython conversion `f = float(n)` for a nonnegative
integer: the conversion rounds to the nearest double (ties to even) and
raises `OverflowError` when the result is infinite.  The largest finite
double is 2^1024 - 2^971; the midpoint above it, 2^1024 - 2^970, already
ties up to 2^1024, so every integer at or above 2^1024 - 2^970 raises
and every integer below it converts to a finite double. -/
def float_of_nat (n : Nat) : Except Unit ℚ :=
  if n < 2 ^ 1024 - 2 ^ 970 then Except.ok ((n : ℚ)) else Except.error ()

/-- Full model of `human_bytes` including the conversion on its first
line: `f = float(n)` may raise `OverflowError`, in which case the
function produces no string at all. -/
def human_bytes_checked (n : Nat) : Except Unit String :=
  match float_of_nat n with
  | Except.error e => Except.error e
  | Except.ok _ => Except.ok (human_bytes n)

/-- Result tuple of `platform.uname()`; raw strings. -/
structure Uname where
  system : String
  release : String
  version : String
  machine : String
  processor : String
deriving DecidableEq

/-- Result of `psutil.virtual_memory()` (the fields the program reads). -/
structure VirtualMemory where
  total : Nat
  available : Nat
  percent : ℚ
deriving DecidableEq

/-- One entry of `psutil.disk_partitions(all = False)`. -/
structure Partition where
  device : String
  fstype : String
  mountpoint : String
deriving DecidableEq

/-- Result of `psutil.disk_usage(mountpoint)` when it does not raise. -/
structure DiskUsage where
  total : Nat
  used : Nat
  free : Nat
  percent : ℚ
deriving DecidableEq

/-- The exception raised by a `psutil.disk_usage` call: `PermissionError`
is caught by the program, every other exception is not. -/
inductive DiskErr where
  | permission : DiskErr
  | other : DiskErr
deriving DecidableEq

/-- One `disks` entry of the Inventory Record. -/
structure Disk where
  device : String
  fstype : String
  total_bytes : Nat
  used_bytes : Nat
  free_bytes : Nat
  percent_used : ℚ
deriving DecidableEq

/-- One entry of the `psutil.net_if_stats()` table (the field the program
reads). -/
structure NicStat where
  isup : Bool
deriving DecidableEq

/-- Address family of a `psutil.net_if_addrs()` entry: `socket.AF_INET`,
`socket.AF_INET6`, or any other family (e.g. link-layer). -/
inductive AddrFamily where
  | inet : AddrFamily
  | inet6 : AddrFamily
  | otherFamily : AddrFamily
deriving DecidableEq

/-- One address entry of a `psutil.net_if_addrs()` interface list. -/
structure IfAddr where
  family : AddrFamily
  address : String
deriving DecidableEq

/-- One `network` entry of the Inventory Record. -/
structure Nic where
  iface : String
  is_up : Option Bool
  ipv4 : List String
  ipv6 : List String
deriving DecidableEq

/-- The `packages` summary of the Inventory Record. -/
structure Packages where
  manager : String
  count : Nat
deriving DecidableEq

/-- The `cpu` sub-record of the Inventory Record. -/
structure CpuInfo where
  physical_cores : Option Nat
  logical_cpus : Option Nat
  loadavg_1m : Option ℚ
  loadavg_5m : Option ℚ
  loadavg_15m : Option ℚ
  freq_mhz : Option ℚ
deriving DecidableEq

/-- The `memory` sub-record of the Inventory Record. -/
structure MemInfo where
  total_bytes : Nat
  available_bytes : Nat
  percent_used : ℚ
deriving DecidableEq

/-- The Inventory Record assembled by `collect_inventory`. -/
structure Record where
  timestamp : String
  hostname : String
  fqdn : String
  os : Uname
  cpu : CpuInfo
  memory : MemInfo
  uptime_seconds : PyFloat
  disks : List Disk
  network : List Nic
  packages : Option Packages
  tags : List String
deriving DecidableEq

/-- All OS-introspection results consumed by one run of
`collect_inventory`, made explicit inputs of the model.  An exception
raised by a probe is an `Except.error` / `Option.none` input value. -/
structure SysEnv where
  uname : Uname
  mem : VirtualMemory
  /-- `os.getloadavg()`: `none` models `AttributeError` or `OSError`. -/
  loadavg : Option (ℚ × ℚ × ℚ)
  partitions : List Partition
  /-- `psutil.disk_usage` keyed by mountpoint; `Except.error` models a
  raised exception, tagged by whether it is a `PermissionError`. -/
  disk_usage : String → Except DiskErr DiskUsage
  /-- `psutil.net_if_addrs()`: insertion-ordered dict as an assoc list. -/
  net_if_addrs : List (String × List IfAddr)
  /-- `psutil.net_if_stats()`: insertion-ordered dict as an assoc list. -/
  net_if_stats : List (String × NicStat)
  /-- `os.path.exists("/usr/bin/dpkg-query")`. -/
  dpkg_exists : Bool
  /-- `os.path.exists("/usr/bin/rpm")`. -/
  rpm_exists : Bool
  /-- `subprocess.check_output` of the dpkg-query listing command:
  `Except.error` models any exception, including the 10-second timeout. -/
  dpkg_out : Except Unit String
  /-- `subprocess.check_output` of the rpm listing command. -/
  rpm_out : Except Unit String
  /-- `psutil.cpu_count(logical = False)`. -/
  physical_cores : Option Nat
  /-- `psutil.cpu_count(logical = True)`. -/
  logical_cpus : Option Nat
  /-- `getattr(psutil.cpu_freq(), 'current', None)`. -/
  cpu_freq : Option ℚ
  /-- Result of `get_uptime_seconds()` (`nan` when boot time is unreadable). -/
  uptime : PyFloat
  timestamp : String
  hostname : String
  fqdn : String

/-- Build one `disks` entry from a partition and its usage snapshot
(the dict literal appended in the disk loop of `collect_inventory`). -/
def mkDisk (p : Partition) (u : DiskUsage) : Disk :=
  { device := p.device, fstype := p.fstype, total_bytes := u.total,
    used_bytes := u.used, free_bytes := u.free, percent_used := u.percent }

/-- The disk loop of `collect_inventory`: query usage per mountpoint,
skip the mount on `PermissionError` (`continue`), let any other exception
escape (there is no handler for it, so the whole run fails). -/
def collect_disks (usage : String → Except DiskErr DiskUsage) :
    List Partition → Except Unit (List Disk)
  | [] => Except.ok []
  | p :: ps =>
    match usage p.mountpoint with
    | Except.ok u =>
      match collect_disks usage ps with
      | Except.ok rest => Except.ok (mkDisk p u :: rest)
      | Except.error e => Except.error e
    | Except.error DiskErr.permission => collect_disks usage ps
    | Except.error DiskErr.other => Except.error ()

/-- Split a character list at every occurrence of a separator character;
the empty list yields one empty segment, like Python `str.split(sep)`. -/
def splitChar (sep : Char) : List Char → List (List Char)
  | [] => [[]]
  | c :: cs =>
    if c = sep then [] :: splitChar sep cs
    else
      match splitChar sep cs with
      | [] => [[c]]
      | t :: ts => (c :: t) :: ts

/-- Model of Python `str.split(sep)` for a one-character separator. -/
def pySplit (s : String) (sep : Char) : List String :=
  (splitChar sep s.data).map String.mk

/-- Model of `a.address.split('%')[0]`: strip an IPv6 zone index. -/
def strip_zone (a : String) : String :=
  (pySplit a '%').getD 0 ""

/-- Build one `network` entry: `is_up` is looked up in the
`net_if_stats` table (`bool(stats.get(ifname).isup) if ifname in stats
else None`), and the address list is filtered by family, with IPv6 zone
indices stripped. -/
def mk_nic (stats : List (String × NicStat)) (ifname : String)
    (addr_list : List IfAddr) : Nic :=
  { iface := ifname,
    is_up :=
      match stats.lookup ifname with
      | some st => some st.isup
      | none => none,
    ipv4 := addr_list.filterMap (fun a =>
      match a.family with
      | AddrFamily.inet => some a.address
      | _ => none),
    ipv6 := addr_list.filterMap (fun a =>
      match a.family with
      | AddrFamily.inet6 => some (strip_zone a.address)
      | _ => none) }

/-- The network loop of `collect_inventory`: one entry per
`net_if_addrs()` item, in enumeration order. -/
def collect_network (addrs : List (String × List IfAddr))
    (stats : List (String × NicStat)) : List Nic :=
  addrs.map (fun p => mk_nic stats p.1 p.2)

/-- Model of Python `str.splitlines()` for newline-separated command
output. -/
def splitlines (s : String) : List String :=
  pySplit s '\n'

/-- Model of `len([l for l in out.splitlines() if l.strip()])`: the number
of non-blank output lines. -/
def count_nonblank (out : String) : Nat :=
  ((splitlines out).filter (fun l => pyStrip l ≠ "")).length

/-- The package-counting block of `collect_inventory`: Linux only;
dpkg-query is probed first and rpm only if dpkg-query's executable is
absent; any exception of the queried command (including the timeout)
is caught and yields `none` (the block started with `pkg_summary = None`). -/
def collect_packages (system : String) (dpkg_exists rpm_exists : Bool)
    (dpkg_out rpm_out : Except Unit String) : Option Packages :=
  if pyLower system = "linux" then
    if dpkg_exists then
      match dpkg_out with
      | Except.ok out => some { manager := "dpkg", count := count_nonblank out }
      | Except.error _ => none
    else if rpm_exists then
      match rpm_out with
      | Except.ok out => some { manager := "rpm", count := count_nonblank out }
      | Except.error _ => none
    else none
  else none

/-- Model of `collect_inventory`: the load-average triple collapses to
three `none` fields when `os.getloadavg` is unsupported or fails; the
disk loop may abort the whole run (uncaught non-permission exception);
`tags or []` replaces a missing tag list with the empty list. -/
def collect_inventory (env : SysEnv) (tags : Option (List String)) :
    Except Unit Record :=
  match collect_disks env.disk_usage env.partitions with
  | Except.error e => Except.error e
  | Except.ok disks =>
    Except.ok
      { timestamp := env.timestamp,
        hostname := env.hostname,
        fqdn := env.fqdn,
        os := env.uname,
        cpu :=
          { physical_cores := env.physical_cores,
            logical_cpus := env.logical_cpus,
            loadavg_1m := env.loadavg.map (fun l => l.1),
            loadavg_5m := env.loadavg.map (fun l => l.2.1),
            loadavg_15m := env.loadavg.map (fun l => l.2.2),
            freq_mhz := env.cpu_freq },
        memory :=
          { total_bytes := env.mem.total,
            available_bytes := env.mem.available,
            percent_used := env.mem.percent },
        uptime_seconds := env.uptime,
        disks := disks,
        network := collect_network env.net_if_addrs env.net_if_stats,
        packages := collect_packages env.uname.system env.dpkg_exists
          env.rpm_exists env.dpkg_out env.rpm_out,
        tags := tags.getD [] }

/-- Truncation toward zero of a rational: Python `int()` on a float. -/
def truncRat (q : ℚ) : ℤ :=
  if 0 ≤ q then ⌊q⌋ else -⌊-q⌋

/-- The uptime cell of the CSV row:
`int(u if u == u else 0)` — a NaN uptime (for which `u == u` is false)
is coerced to 0, any other value is truncated to a whole number. -/
def uptime_field (u : PyFloat) : ℤ :=
  match u with
  | PyFloat.nan => 0
  | PyFloat.val q => truncRat q

/-- Rendering of an optional integer CSV cell: `csv.DictWriter` writes an
empty cell for `None`. -/
def optNatField (o : Option Nat) : String :=
  match o with
  | some n => toString n
  | none => ""

/-- Rendering of a float CSV cell; the exact digit string of Python
`str(float)` is abstracted by the rational's canonical string. -/
def floatField (q : ℚ) : String :=
  toString q

/-- The `fieldnames` of the CSV writer: the 12 keys of the flattened row
dict, in insertion order. -/
def csvFieldnames : List String :=
  ["timestamp", "hostname", "fqdn", "os_system", "os_release",
   "logical_cpus", "mem_total", "mem_used_pct", "uptime_seconds",
   "disk_count", "iface_count", "tags"]

/-- The values of the flattened CSV row dict of `write_csv`, in the same
order as `csvFieldnames`. -/
def csvRow (data : Record) : List String :=
  [data.timestamp,
   data.hostname,
   data.fqdn,
   data.os.system,
   data.os.release,
   optNatField data.cpu.logical_cpus,
   human_bytes data.memory.total_bytes,
   floatField data.memory.percent_used,
   toString (uptime_field data.uptime_seconds),
   toString data.disks.length,
   toString data.network.length,
   String.intercalate "," data.tags]

/-- Model of `write_csv`: `writeheader()` emits the field names,
`writerow(row)` emits the one data row; the output is the list of CSV
records, each a list of cells. -/
def write_csv (data : Record) : List (List String) :=
  [csvFieldnames, csvRow data]

/-- Model of the Python builtin `print`: writes its argument plus a
newline. -/
def pyPrint (s : String) : String :=
  s ++ "\n"

/-- Bytes written in JSON mode to the standard output stream:
`print(dump)` in `main`. -/
def json_out_stdout (dump : String) : String :=
  pyPrint dump

/-- Bytes written in JSON mode to a named file:
`f.write(dump + "\n")` in `main`. -/
def json_out_file (dump : String) : String :=
  dump ++ "\n"

/-- Model of the tag parsing in `main`:
`[t.strip() for t in args.tags.split(",") if t.strip()] if args.tags else []`.
`none` is an absent `--tags` argument; the empty string is also falsy. -/
def parse_tags (args_tags : Option String) : List String :=
  match args_tags with
  | none => []
  | some s =>
    if s = "" then []
    else (pySplit s ',').filterMap (fun t =>
      if pyStrip t = "" then none else some (pyStrip t))

instance {ε α : Type} [DecidableEq ε] [DecidableEq α] :
    DecidableEq (Except ε α) := fun a b =>
  match a, b with
  | Except.ok u, Except.ok v =>
    match decEq u v with
    | isTrue h => isTrue (by rw [h])
    | isFalse h => isFalse (fun he => h (Except.ok.inj he))
  | Except.error e, Except.error f =>
    match decEq e f with
    | isTrue h => isTrue (by rw [h])
    | isFalse h => isFalse (fun he => h (Except.error.inj he))
  | Except.ok _, Except.error _ => isFalse (fun he => Except.noConfusion he)
  | Except.error _, Except.ok _ => isFalse (fun he => Except.noConfusion he)

/-- Checks that a run of `collect_inventory` completed without an
uncaught exception. -/
def recIsOk (r : Except Unit Record) : Bool :=
  match r with
  | Except.ok _ => true
  | Except.error _ => false

/-- A concrete uname value used to instantiate theorems. -/
def sampleUname : Uname :=
  { system := "Linux", release := "6.1.0", version := "v1",
    machine := "x86_64", processor := "x86_64" }

/-- A concrete Inventory Record with a NaN uptime, used to instantiate
theorems. -/
def sampleRec : Record :=
  { timestamp := "2026-01-01T00:00:00Z", hostname := "host",
    fqdn := "host.example", os := sampleUname,
    cpu := { physical_cores := some 4, logical_cpus := some 8,
             loadavg_1m := none, loadavg_5m := none, loadavg_15m := none,
             freq_mhz := none },
    memory := { total_bytes := 1024, available_bytes := 512,
                percent_used := 50 },
    uptime_seconds := PyFloat.nan, disks := [], network := [],
    packages := none, tags := ["lab"] }

/-- The same record with a finite uptime of 7/2 seconds. -/
def sampleRecVal : Record :=
  { sampleRec with uptime_seconds := PyFloat.val (7/2) }

/-- Concrete partitions used to instantiate the disk-enumeration
theorems. -/
def samplePartRoot : Partition :=
  { device := "/dev/sda1", fstype := "ext4", mountpoint := "/" }

/-- A partition whose usage query raises `PermissionError`. -/
def samplePartProc : Partition :=
  { device := "proc", fstype := "proc", mountpoint := "/proc" }

/-- A partition whose usage query raises a non-permission exception. -/
def samplePartBad : Partition :=
  { device := "/dev/sdb1", fstype := "ext4", mountpoint := "/bad" }

/-- A concrete usage snapshot. -/
def sampleUsage : DiskUsage :=
  { total := 1000, used := 400, free := 600, percent := 40 }

/-- A concrete `psutil.disk_usage` behaviour: the root mount succeeds,
`/proc` raises `PermissionError`, everything else raises another
exception. -/
def sampleUsageFn (m : String) : Except DiskErr DiskUsage :=
  if m = "/" then Except.ok sampleUsage
  else if m = "/proc" then Except.error DiskErr.permission
  else Except.error DiskErr.other

/-- Concrete interface-statistics table used to instantiate the network
theorems. -/
def sampleStats : List (String × NicStat) :=
  [("eth0", { isup := true })]

/-- Concrete address table: `lo` is missing from `sampleStats`. -/
def sampleAddrs : List (String × List IfAddr) :=
  [("eth0", [{ family := AddrFamily.inet, address := "10.0.0.2" }]),
   ("lo", [])]

/-- A concrete environment with no load-average support and trivial
probes elsewhere. -/
def sampleEnv : SysEnv :=
  { uname := sampleUname,
    mem := { total := 1024, available := 512, percent := 50 },
    loadavg := none,
    partitions := [],
    disk_usage := sampleUsageFn,
    net_if_addrs := [],
    net_if_stats := [],
    dpkg_exists := false,
    rpm_exists := false,
    dpkg_out := Except.error (),
    rpm_out := Except.error (),
    physical_cores := some 4,
    logical_cpus := some 8,
    cpu_freq := none,
    uptime := PyFloat.val 100,
    timestamp := "2026-01-01T00:00:00Z",
    hostname := "host",
    fqdn := "host.example" }

/-- The Inventory Record that `collect_inventory` assembles from
`sampleEnv` with the tag list ["lab"]. -/
def sampleEnvRec : Record :=
  { sampleRec with uptime_seconds := PyFloat.val 100 }

lemma hbAux_stop (fuel : Nat) (f : ℚ) (i : Nat)
    (h : ¬(1024 ≤ f ∧ i < symbols.length - 1)) : hbAux fuel f i = (f, i) := by
  cases fuel with
  | zero => rfl
  | succ m => simp only [hbAux, if_neg h]

lemma hbAux_step (fuel : Nat) (f : ℚ) (i : Nat) (h1 : 1024 ≤ f)
    (h2 : i < symbols.length - 1) :
    hbAux (fuel + 1) f i = hbAux fuel (f / 1024) (i + 1) := by
  simp only [hbAux, if_pos (And.intro h1 h2)]

/-- Claim C3: `human_bytes` satisfies the four reference equations of the
spec: 0 bytes renders as "0.00 B", 1024 as "1.00 KB", 1536 as "1.50 KB" and
1099511627776 as "1.00 TB". -/
theorem human_bytes_reference_values :
    human_bytes 0 = "0.00 B" ∧
    human_bytes 1024 = "1.00 KB" ∧
    human_bytes 1536 = "1.50 KB" ∧
    human_bytes 1099511627776 = "1.00 TB" := by
  refine ⟨?_, ?_, ?_, ?_⟩
  · have e1 : hbLoop ((0 : Nat) : ℚ) 0 = (0, 0) :=
      hbAux_stop 4 _ 0 (fun h => absurd h.1 (by norm_num))
    have e2 : format2 (0 : ℚ) = "0.00" := by
      have h : roundHalfEven ((0 : ℚ) * 100) = 0 := by unfold roundHalfEven; norm_num
      unfold format2
      rw [h]
      rfl
    simp only [human_bytes, e1, e2]
    rfl
  · have e1 : hbLoop ((1024 : Nat) : ℚ) 0 = hbAux 3 (1024 / 1024) 1 :=
      hbAux_step 3 1024 0 (by norm_num) (by norm_num [symbols])
    have e2 : hbAux 3 ((1024 : ℚ) / 1024) 1 = (1024 / 1024, 1) :=
      hbAux_stop 3 _ 1 (fun h => absurd h.1 (by norm_num))
    have e3 : format2 ((1024 : ℚ) / 1024) = "1.00" := by
      have h : roundHalfEven ((1024 : ℚ) / 1024 * 100) = 100 := by
        unfold roundHalfEven; norm_num
      unfold format2
      rw [h]
      rfl
    simp only [human_bytes, e1, e2]
    rw [e3]
    rfl
  · have e1 : hbLoop ((1536 : Nat) : ℚ) 0 = hbAux 3 (1536 / 1024) 1 :=
      hbAux_step 3 1536 0 (by norm_num) (by norm_num [symbols])
    have e2 : hbAux 3 ((1536 : ℚ) / 1024) 1 = (1536 / 1024, 1) :=
      hbAux_stop 3 _ 1 (fun h => absurd h.1 (by norm_num))
    have e3 : format2 ((1536 : ℚ) / 1024) = "1.50" := by
      have h : roundHalfEven ((1536 : ℚ) / 1024 * 100) = 150 := by
        unfold roundHalfEven; norm_num
      unfold format2
      rw [h]
      rfl
    simp only [human_bytes, e1, e2]
    rw [e3]
    rfl
  · have e1 : hbLoop ((1099511627776 : Nat) : ℚ) 0 = hbAux 3 (1099511627776 / 1024) 1 :=
      hbAux_step 3 _ 0 (by norm_num) (by norm_num [symbols])
    have e2 : hbAux 3 ((1099511627776 : ℚ) / 1024) 1
        = hbAux 2 (1099511627776 / 1024 / 1024) 2 :=
      hbAux_step 2 _ 1 (by norm_num) (by norm_num [symbols])
    have e3 : hbAux 2 ((1099511627776 : ℚ) / 1024 / 1024) 2
        = hbAux 1 (1099511627776 / 1024 / 1024 / 1024) 3 :=
      hbAux_step 1 _ 2 (by norm_num) (by norm_num [symbols])
    have e4 : hbAux 1 ((1099511627776 : ℚ) / 1024 / 1024 / 1024) 3
        = hbAux 0 (1099511627776 / 1024 / 1024 / 1024 / 1024) 4 :=
      hbAux_step 0 _ 3 (by norm_num) (by norm_num [symbols])
    have e45 : hbAux 0 ((1099511627776 : ℚ) / 1024 / 1024 / 1024 / 1024) 4
        = (1099511627776 / 1024 / 1024 / 1024 / 1024, 4) := rfl
    have e5 : format2 ((1099511627776 : ℚ) / 1024 / 1024 / 1024 / 1024) = "1.00" := by
      have h : roundHalfEven ((1099511627776 : ℚ) / 1024 / 1024 / 1024 / 1024 * 100) = 100 := by
        unfold roundHalfEven; norm_num
      unfold format2
      rw [h]
      rfl
    simp only [human_bytes, e1, e2, e3, e4, e45]
    rw [e5]
    rfl

/-- Claim C1: for every Inventory Record (in particular every collected
one, with any tag list), the CSV export of `write_csv` has exactly two
records — the header and one data row — and each has exactly 12 cells. -/
theorem write_csv_two_lines_twelve_fields (data : Record) :
    (write_csv data).map List.length = [12, 12] := rfl

/-- Claim C2, counterexample: in JSON mode with output to the standard
output stream, the bytes written are NOT the serializer output alone:
`print` appends a newline of its own. -/
theorem json_stdout_no_newline_counterexample :
    ¬ json_out_stdout "null" = "null" := by decide

/-- Claim C2, amended: in JSON mode a trailing newline is appended on both
destinations: the standard-output path writes the dump through `print`
(which adds a newline), exactly the bytes the file path writes. -/
theorem json_stdout_appends_newline (dump : String) :
    json_out_stdout dump = dump ++ "\n" ∧
    json_out_stdout dump = json_out_file dump :=
  ⟨rfl, rfl⟩

lemma filterMap_strip (l : List String) :
    l.filterMap (fun t => if pyStrip t = "" then none else some (pyStrip t))
      = (l.map pyStrip).filter (fun t => t ≠ "") := by
  induction l with
  | nil => rfl
  | cons a l ih =>
    by_cases h : pyStrip a = ""
    · simp [h, ih]
    · simp [h, ih]

/-- Claim C6: `--tags` parsing splits on commas, trims each segment,
drops blank segments and preserves order; on "lab, linux, " it yields
exactly ["lab", "linux"]. -/
theorem tags_parsing_spec :
    parse_tags (some "lab, linux, ") = ["lab", "linux"] ∧
    ∀ s : String, parse_tags (some s)
      = ((pySplit s ',').map pyStrip).filter (fun t => t ≠ "") := by
  constructor
  · decide
  · intro s
    by_cases hs : s = ""
    · subst hs
      decide
    · simp only [parse_tags, if_neg hs]
      exact filterMap_strip _

/-- Claim C4: the package counter is skipped off Linux; dpkg is probed
first and, when its executable is present, the rpm query result is never
consulted (at most one manager per run) and its own failure yields the
absent-marker; when dpkg is absent, rpm is queried and its failure yields
the absent-marker; with neither executable the field is absent. -/
theorem package_counter_spec (system : String) (ed er : Bool)
    (rd rr : Except Unit String) :
    (pyLower system ≠ "linux" →
      collect_packages system ed er rd rr = none) ∧
    (ed = true → ∀ rr2 : Except Unit String,
      collect_packages system ed er rd rr
        = collect_packages system ed er rd rr2) ∧
    (ed = true → ∀ out : String, rd = Except.ok out →
      collect_packages system ed er rd rr
        = some { manager := "dpkg", count := count_nonblank out }
        ∨ pyLower system ≠ "linux") ∧
    (ed = true → rd = Except.error () →
      collect_packages system ed er rd rr = none) ∧
    (ed = false → er = true → rr = Except.error () →
      collect_packages system ed er rd rr = none) ∧
    (ed = false → er = false →
      collect_packages system ed er rd rr = none) := by
  unfold collect_packages
  by_cases hs : pyLower system = "linux"
  · simp only [if_pos hs]
    refine ⟨fun h => absurd hs h, ?_, ?_, ?_, ?_, ?_⟩
    · rintro rfl rr2
      rfl
    · rintro rfl out rfl
      exact Or.inl rfl
    · rintro rfl rfl
      rfl
    · rintro rfl rfl rfl
      rfl
    · rintro rfl rfl
      rfl
  · simp only [if_neg hs]
    refine ⟨fun _ => trivial, fun _ _ => trivial, fun _ _ _ => Or.inr hs,
      fun _ _ => trivial, fun _ _ _ => trivial, fun _ _ => trivial⟩

/-- Instantiation of the package-counter theorem: a non-Linux system
yields the absent-marker, a failing dpkg query yields the absent-marker,
and a successful dpkg query yields the dpkg count even when rpm is also
present. -/
theorem package_counter_spec_witness :
    collect_packages "Darwin" true true (Except.ok "a\n") (Except.ok "b\n")
      = none ∧
    collect_packages "Linux" true true (Except.error ()) (Except.ok "b\n")
      = none ∧
    (collect_packages "Linux" true true (Except.ok "a\n") (Except.ok "b\n")
      = some { manager := "dpkg", count := count_nonblank "a\n" }
      ∨ pyLower "Linux" ≠ "linux") :=
  ⟨(package_counter_spec "Darwin" true true (Except.ok "a\n")
      (Except.ok "b\n")).1 (by decide),
   (package_counter_spec "Linux" true true (Except.error ())
      (Except.ok "b\n")).2.2.2.1 rfl rfl,
   (package_counter_spec "Linux" true true (Except.ok "a\n")
      (Except.ok "b\n")).2.2.1 rfl "a\n" rfl⟩

/-- Claim C8: every network entry's `is_up` equals the up/down flag of
the interface-statistics table when the interface name is present there,
and is the absent-marker when the name is absent from that table. -/
theorem network_is_up_from_stats (addrs : List (String × List IfAddr))
    (stats : List (String × NicStat)) :
    ∀ e ∈ collect_network addrs stats,
      (∀ st : NicStat, stats.lookup e.iface = some st →
        e.is_up = some st.isup) ∧
      (stats.lookup e.iface = none → e.is_up = none) := by
  intro e he
  rcases List.mem_map.1 he with ⟨p, _, rfl⟩
  constructor
  · intro st hst
    simp only [mk_nic] at hst ⊢
    rw [hst]
  · intro hnone
    simp only [mk_nic] at hnone ⊢
    rw [hnone]

/-- Instantiation of the network theorem on `sampleAddrs` and
`sampleStats`: `eth0` is present in the statistics table and reports
up; `lo` is absent and gets the absent-marker, not false. -/
theorem network_is_up_from_stats_witness :
    (mk_nic sampleStats "eth0"
        [{ family := AddrFamily.inet, address := "10.0.0.2" }]).is_up
      = some true ∧
    (mk_nic sampleStats "lo" []).is_up = none :=
  ⟨(network_is_up_from_stats sampleAddrs sampleStats _
      (by decide)).1 { isup := true } (by decide),
   (network_is_up_from_stats sampleAddrs sampleStats _
      (by decide)).2 (by decide)⟩

lemma collect_disks_ok_of_no_fatal (usage : String → Except DiskErr DiskUsage)
    (ps : List Partition)
    (h : ∀ p ∈ ps, usage p.mountpoint ≠ Except.error DiskErr.other) :
    collect_disks usage ps = Except.ok (ps.filterMap (fun p =>
      match usage p.mountpoint with
      | Except.ok u => some (mkDisk p u)
      | Except.error _ => none)) := by
  induction ps with
  | nil => rfl
  | cons a ps ih =>
    have ha := h a (List.mem_cons_self a ps)
    have htail : ∀ p ∈ ps, usage p.mountpoint ≠ Except.error DiskErr.other :=
      fun p hp => h p (List.mem_cons_of_mem a hp)
    cases hu : usage a.mountpoint with
    | ok u => simp [collect_disks, hu, ih htail]
    | error e =>
      cases e with
      | permission => simp [collect_disks, hu, ih htail]
      | other => exact absurd hu ha

lemma collect_disks_fatal (usage : String → Except DiskErr DiskUsage)
    (ps : List Partition) :
    ∀ p ∈ ps, usage p.mountpoint = Except.error DiskErr.other →
      collect_disks usage ps = Except.error () := by
  induction ps with
  | nil =>
    intro p hp
    exact absurd hp (List.not_mem_nil p)
  | cons a ps ih =>
    intro p hp hbad
    rcases List.mem_cons.1 hp with rfl | hp2
    · simp [collect_disks, hbad]
    · cases hu : usage a.mountpoint with
      | ok u => simp [collect_disks, hu, ih p hp2 hbad]
      | error e =>
        cases e with
        | permission =>
          simp only [collect_disks, hu]
          exact ih p hp2 hbad
        | other => simp [collect_disks, hu]

/-- Claim C5: when no usage query raises a non-permission exception, disk
enumeration succeeds and yields exactly the mounts whose query succeeded
(permission-failing mounts are omitted, the others keep enumeration
going); when any mount's usage query raises a non-permission exception,
the whole run fails. -/
theorem disk_enumeration_error_handling
    (usage : String → Except DiskErr DiskUsage) (ps : List Partition) :
    ((∀ p ∈ ps, usage p.mountpoint ≠ Except.error DiskErr.other) →
      collect_disks usage ps = Except.ok (ps.filterMap (fun p =>
        match usage p.mountpoint with
        | Except.ok u => some (mkDisk p u)
        | Except.error _ => none))) ∧
    (∀ p ∈ ps, usage p.mountpoint = Except.error DiskErr.other →
      collect_disks usage ps = Except.error ()) :=
  ⟨collect_disks_ok_of_no_fatal usage ps, collect_disks_fatal usage ps⟩

/-- Instantiation of the disk-enumeration theorem on `sampleUsageFn`: a
run over the root mount and the permission-denied `/proc` mount succeeds
(with `/proc` filtered out), while a run that meets a non-permission
failure aborts. -/
theorem disk_enumeration_error_handling_witness :
    collect_disks sampleUsageFn [samplePartRoot, samplePartProc]
      = Except.ok ([samplePartRoot, samplePartProc].filterMap (fun p =>
        match sampleUsageFn p.mountpoint with
        | Except.ok u => some (mkDisk p u)
        | Except.error _ => none)) ∧
    collect_disks sampleUsageFn [samplePartRoot, samplePartBad]
      = Except.error () :=
  ⟨(disk_enumeration_error_handling sampleUsageFn
      [samplePartRoot, samplePartProc]).1 (by decide),
   (disk_enumeration_error_handling sampleUsageFn
      [samplePartRoot, samplePartBad]).2 samplePartBad (by decide) (by decide)⟩

/-- Claim C9: when the platform exposes no load averages
(`os.getloadavg` raises), all three load fields of the record are the
absent-marker, the failure is confined (collection still succeeds as long
as no disk query raises a fatal error), and the produced record is
complete. -/
theorem loadavg_absent_marker (env : SysEnv) (tags : Option (List String))
    (hl : env.loadavg = none) :
    ((∀ p ∈ env.partitions,
        env.disk_usage p.mountpoint ≠ Except.error DiskErr.other) →
      recIsOk (collect_inventory env tags) = true) ∧
    (∀ rec : Record, collect_inventory env tags = Except.ok rec →
      rec.cpu.loadavg_1m = none ∧ rec.cpu.loadavg_5m = none ∧
        rec.cpu.loadavg_15m = none) := by
  constructor
  · intro h
    unfold collect_inventory
    rw [collect_disks_ok_of_no_fatal env.disk_usage env.partitions h]
    rfl
  · intro rec hrec
    unfold collect_inventory at hrec
    cases hd : collect_disks env.disk_usage env.partitions with
    | error e =>
      rw [hd] at hrec
      cases hrec
    | ok disks =>
      rw [hd] at hrec
      cases hrec
      simp [hl]

/-- Instantiation of the load-average theorem on `sampleEnv` (which has
no load-average support): collection completes and the record it yields
has the three absent-markers. -/
theorem loadavg_absent_marker_witness :
    recIsOk (collect_inventory sampleEnv (some ["lab"])) = true ∧
    (sampleEnvRec.cpu.loadavg_1m = none ∧
      sampleEnvRec.cpu.loadavg_5m = none ∧
      sampleEnvRec.cpu.loadavg_15m = none) :=
  ⟨(loadavg_absent_marker sampleEnv (some ["lab"]) rfl).1 (by decide),
   (loadavg_absent_marker sampleEnv (some ["lab"]) rfl).2 sampleEnvRec rfl⟩

lemma abs_sub_truncRat_lt_one (q : ℚ) : |q - (truncRat q : ℚ)| < 1 := by
  unfold truncRat
  by_cases h : 0 ≤ q
  · rw [if_pos h]
    have h1 : q - ((⌊q⌋ : ℤ) : ℚ) = Int.fract q := rfl
    rw [h1, abs_of_nonneg (Int.fract_nonneg q)]
    exact Int.fract_lt_one q
  · rw [if_neg h]
    push_cast
    have h1 : q - -((⌊-q⌋ : ℤ) : ℚ) = -(Int.fract (-q)) := by
      unfold Int.fract
      ring
    rw [h1, abs_neg, abs_of_nonneg (Int.fract_nonneg (-q))]
    exact Int.fract_lt_one (-q)

/-- Claim C7: the uptime cell of the CSV data row is exactly "0" when
`uptime_seconds` is NaN (never negative, never an error), and for a
finite uptime it is the whole-second truncation, within one second of
the true value. -/
theorem csv_uptime_nan_coercion :
    (∀ data : Record, data.uptime_seconds = PyFloat.nan →
      (csvRow data).getD 8 "" = "0") ∧
    (∀ (data : Record) (q : ℚ), data.uptime_seconds = PyFloat.val q →
      (csvRow data).getD 8 "" = toString (truncRat q) ∧
      |q - (truncRat q : ℚ)| < 1) := by
  constructor
  · intro data h
    show toString (uptime_field data.uptime_seconds) = "0"
    rw [h]
    rfl
  · intro data q h
    refine ⟨?_, abs_sub_truncRat_lt_one q⟩
    show toString (uptime_field data.uptime_seconds) = toString (truncRat q)
    rw [h]
    rfl

/-- Instantiation of the uptime-coercion theorem: the NaN record renders
a "0" cell, and a 3.5-second uptime renders its truncation, 3. -/
theorem csv_uptime_nan_coercion_witness :
    (csvRow sampleRec).getD 8 "" = "0" ∧
    ((csvRow sampleRecVal).getD 8 "" = toString (truncRat (7/2)) ∧
      |(7/2 : ℚ) - (truncRat (7/2) : ℚ)| < 1) :=
  ⟨csv_uptime_nan_coercion.1 sampleRec rfl,
   csv_uptime_nan_coercion.2 sampleRecVal (7/2) rfl⟩

lemma hbAux_snd_le (fuel : Nat) : ∀ (f : ℚ) (i : Nat),
    (hbAux fuel f i).2 ≤ i + fuel := by
  induction fuel with
  | zero =>
    intro f i
    simp [hbAux]
  | succ m ih =>
    intro f i
    by_cases h : 1024 ≤ f ∧ i < symbols.length - 1
    · simp only [hbAux, if_pos h]
      exact (ih (f / 1024) (i + 1)).trans (by omega)
    · simp only [hbAux, if_neg h]
      omega

/-- Claim C10, counterexample: `human_bytes` does NOT return a string for
every nonnegative integer: at 2^1024 the conversion `f = float(n)` on its
first line raises `OverflowError`, so no string (and no unit symbol) is
ever produced. -/
theorem human_bytes_overflow_counterexample :
    human_bytes_checked (2 ^ 1024) = Except.error () := by
  unfold human_bytes_checked float_of_nat
  rw [if_neg (Nat.not_lt.2 (Nat.sub_le (2 ^ 1024) (2 ^ 970)))]

/-- Claim C10, amended: for every byte count below the double-overflow
threshold (`float(n)` finite, n < 2^1024 - 2^970), `human_bytes` returns
a string, its unit index stays in bounds (the rendered unit is one of the
five symbols, and the output is the formatted value followed by that
unit), and the unit saturates at TB: from 1024 terabytes up, the index is
the last one and the numeric part is at least 1024. -/
theorem human_bytes_unit_safety (n : Nat) (hn : n < 2 ^ 1024 - 2 ^ 970) :
    human_bytes_checked n = Except.ok (human_bytes n) ∧
    (hbLoop ((n : ℚ)) 0).2 < symbols.length ∧
    symbols.getD (hbLoop ((n : ℚ)) 0).2 "" ∈ symbols ∧
    human_bytes n = format2 (hbLoop ((n : ℚ)) 0).1 ++ " "
      ++ symbols.getD (hbLoop ((n : ℚ)) 0).2 "" ∧
    (1024 ^ 5 ≤ n →
      (hbLoop ((n : ℚ)) 0).2 = 4 ∧ 1024 ≤ (hbLoop ((n : ℚ)) 0).1) := by
  have hc : human_bytes_checked n = Except.ok (human_bytes n) := by
    unfold human_bytes_checked float_of_nat
    rw [if_pos hn]
  refine ⟨hc, ?_⟩
  have hb := hbAux_snd_le (symbols.length - 1 - 0) ((n : ℚ)) 0
  have hlt : (hbLoop ((n : ℚ)) 0).2 < symbols.length := by
    unfold hbLoop
    simp only [symbols, List.length_cons, List.length_nil] at hb ⊢
    omega
  refine ⟨hlt, ?_, rfl, ?_⟩
  · have hk5 : (hbLoop ((n : ℚ)) 0).2 < 5 := by
      simpa [symbols] using hlt
    set k := (hbLoop ((n : ℚ)) 0).2 with hk
    interval_cases k <;> decide
  · intro h
    have hq : ((1024 : ℚ)) ^ 5 ≤ (n : ℚ) := by exact_mod_cast h
    have pos1024 : (0 : ℚ) < 1024 := by norm_num
    have c1 : (1024 : ℚ) ≤ (n : ℚ) := le_trans (by norm_num) hq
    have c2 : (1024 : ℚ) ≤ (n : ℚ) / 1024 := by
      rw [le_div_iff₀ pos1024]
      exact le_trans (by norm_num) hq
    have c3 : (1024 : ℚ) ≤ (n : ℚ) / 1024 / 1024 := by
      rw [le_div_iff₀ pos1024, le_div_iff₀ pos1024]
      exact le_trans (by norm_num) hq
    have c4 : (1024 : ℚ) ≤ (n : ℚ) / 1024 / 1024 / 1024 := by
      rw [le_div_iff₀ pos1024, le_div_iff₀ pos1024, le_div_iff₀ pos1024]
      exact le_trans (by norm_num) hq
    have c5 : (1024 : ℚ) ≤ (n : ℚ) / 1024 / 1024 / 1024 / 1024 := by
      rw [le_div_iff₀ pos1024, le_div_iff₀ pos1024, le_div_iff₀ pos1024,
        le_div_iff₀ pos1024]
      exact le_trans (by norm_num) hq
    have e1 : hbLoop ((n : ℚ)) 0 = hbAux 3 ((n : ℚ) / 1024) 1 :=
      hbAux_step 3 _ 0 c1 (by norm_num [symbols])
    have e2 : hbAux 3 ((n : ℚ) / 1024) 1
        = hbAux 2 ((n : ℚ) / 1024 / 1024) 2 :=
      hbAux_step 2 _ 1 c2 (by norm_num [symbols])
    have e3 : hbAux 2 ((n : ℚ) / 1024 / 1024) 2
        = hbAux 1 ((n : ℚ) / 1024 / 1024 / 1024) 3 :=
      hbAux_step 1 _ 2 c3 (by norm_num [symbols])
    have e4 : hbAux 1 ((n : ℚ) / 1024 / 1024 / 1024) 3
        = hbAux 0 ((n : ℚ) / 1024 / 1024 / 1024 / 1024) 4 :=
      hbAux_step 0 _ 3 c4 (by norm_num [symbols])
    rw [e1, e2, e3, e4]
    exact ⟨rfl, c5⟩

set_option exponentiation.threshold 1200 in
set_option maxRecDepth 8192 in
/-- Instantiation of the unit-safety theorem at exactly 1024 terabytes
(well below the overflow threshold): the conversion succeeds and the unit
saturates at index 4 with a numeric part of at least 1024. -/
theorem human_bytes_unit_safety_witness :
    human_bytes_checked (1024 ^ 5) = Except.ok (human_bytes (1024 ^ 5)) ∧
    ((hbLoop (((1024 ^ 5 : Nat) : ℚ)) 0).2 = 4 ∧
      1024 ≤ (hbLoop (((1024 ^ 5 : Nat) : ℚ)) 0).1) :=
  ⟨(human_bytes_unit_safety (1024 ^ 5) (by decide)).1,
   (human_bytes_unit_safety (1024 ^ 5) (by decide)).2.2.2.2
     (Nat.le_refl (1024 ^ 5))⟩

end SystemInventory
